import Mathlib

/-!
Verification development for the D-Bus notification lifecycle controller of
the qtutilities repository (src/misc/dbusnotification.cpp).

The C++ class `DBusNotification` is embedded shallowly:

* the 32-bit unsigned identifier field `m_id` becomes a `Nat` (all values the
  code ever stores are below `2 ^ 32`); the sentinels `initialId`, `pendingId`
  and `pendingId2` are translated literally from
  `std::numeric_limits<uint>::min()` / `::max()` / `::max() - 1`;
* the process-wide `std::map<IDType, DBusNotification *> pendingNotifications`
  becomes an association list with unique keys (an invariant of `std::map`),
  with handles addressed by a numeric reference instead of a pointer;
* every outbound D-Bus call (`Notify`, `CloseNotification`, `GetCapabilities`)
  and every Qt signal emission (`error`, `shown`, `closed`, `actionInvoked`)
  is recorded as an event; each event additionally records whether
  `pendingNotificationsMutex` was held (`QMutexLocker` scopes in the source)
  at the moment it was produced;
* the `QDBusPendingCallWatcher` pointer `m_watcher` becomes an `Option Nat`
  token; reply correlation (`watcher != m_watcher`) becomes token comparison;
  a reply is an `Except Unit IDType` (transport error or returned identifier).
-/

namespace QtUtilities

/-- C++ `using IDType = uint;` — 32-bit unsigned, embedded as `Nat` with the
sentinel values taken modulo nothing because the source only ever stores
values `< 2 ^ 32`. -/
abbrev IDType := Nat

/-- Source: `constexpr auto initialId = std::numeric_limits<IDType>::min();` -/
def initialId : IDType := 0

/-- Source: `constexpr auto pendingId = std::numeric_limits<IDType>::max();` -/
def pendingId : IDType := 2 ^ 32 - 1

/-- Source: `constexpr auto pendingId2 = pendingId - 1;` -/
def pendingId2 : IDType := pendingId - 1

/-- Modelled from the spec: the header declaring `enum class
NotificationCloseReason` is not among the sources (only
src/misc/dbusnotification.cpp is); the spec fixes the decoded reasons as
1 = Expired, 2 = Dismissed, 3 = ClosedByRequest, anything else Undefined,
plus ActionInvoked for action-triggered closure. -/
inductive NotificationCloseReason where
  | Undefined
  | Expired
  | Dismissed
  | ClosedByRequest
  | ActionInvoked
deriving DecidableEq, Repr

/-- The per-handle fields of `DBusNotification` that the lifecycle state
machine reads or writes: the identifier, the title, the message body and the
pending-call watcher (modelled as a token). -/
structure Notification where
  m_id : IDType
  m_title : String
  m_msg : String
  m_watcher : Option Nat
deriving DecidableEq, Repr

/-- Observable effects of the controller: the three outbound D-Bus calls of
the interface and the four Qt signals, the latter tagged with the emitting
handle's reference. -/
inductive Event where
  | notify (replacesId : IDType) (title : String) (msg : String)
  | closeNotification (id : IDType)
  | getCapabilities
  | sigError (h : Nat)
  | sigShown (h : Nat)
  | sigClosed (h : Nat) (reason : NotificationCloseReason)
  | sigActionInvoked (h : Nat) (actionId : String)
deriving DecidableEq, Repr

/-- An event together with whether `pendingNotificationsMutex` was held
(a `QMutexLocker` scope was active in the source) when it was produced. -/
structure TEvent where
  lockHeld : Bool
  ev : Event
deriving DecidableEq, Repr

/-- The outbound IPC calls, as opposed to locally delivered Qt signals. -/
def isOutbound : Event → Bool
  | Event.notify _ _ _ => true
  | Event.closeNotification _ => true
  | Event.getCapabilities => true
  | _ => false

/-- Source: `std::map::find` on the registry: the first (and, keys being unique, the
only) binding of the identifier. -/
def mapLookup : List (IDType × Nat) → IDType → Option Nat
  | [], _ => none
  | (k, v) :: rest, id => if k = id then some v else mapLookup rest id

/-- Source: `pendingNotifications[id] = h` (`std::map::operator[]` insert-or-assign). -/
def mapInsert : List (IDType × Nat) → IDType → Nat → List (IDType × Nat)
  | [], id, v => [(id, v)]
  | (k, w) :: rest, id, v =>
    if k = id then (k, v) :: rest else (k, w) :: mapInsert rest id v

/-- Source: `pendingNotifications.erase(i)` on the entry found for `id`; since
`std::map` keys are unique, erasing the found entry equals removing every
binding of the key. -/
def mapErase (m : List (IDType × Nat)) (id : IDType) : List (IDType × Nat) :=
  m.filter (fun e => ¬ e.1 = id)

/-- The whole mutable state the source touches: the handles (a total map from
handle references, standing in for object identity of the C++ instances), the
process-wide registry `pendingNotifications`, and whether
`s_dbusInterface->isValid()` holds. -/
structure SysState where
  handles : Nat → Notification
  registry : List (IDType × Nat)
  dbusValid : Bool

/-- Overwrite the fields of the handle `h`. -/
def setHandle (s : SysState) (h : Nat) (n : Notification) : SysState :=
  { s with handles := fun k => if k = h then n else s.handles k }

/-- Source: `bool DBusNotification::isPending() const
    { return m_id == pendingId || m_id == pendingId2; }` -/
def isPending (n : Notification) : Bool :=
  n.m_id == pendingId || n.m_id == pendingId2

/-- Modelled from the spec: `DBusNotification::isVisible` is declared in the
header, which is not among the sources; the spec states "`isVisible()`: true
iff state is `Assigned`", where `Assigned(id)` is a daemon-confirmed
identifier, the glossary's "0/unassigned" being excluded, as are the two
pending sentinels. -/
def isVisible (n : Notification) : Bool :=
  n.m_id != initialId && !(isPending n)

/-- Source: `bool DBusNotification::show()` — coalesce if pending; fail if the
interface is invalid; otherwise dispatch `Notify` with the previous `m_id` as
`replacesId`, install a fresh watcher and become pending. Returns the new
state, the C++ return value and the events in order. -/
def show' (s : SysState) (h : Nat) (freshTok : Nat) :
    SysState × Bool × List TEvent :=
  let n := s.handles h
  if isPending n then
    (setHandle s h { n with m_id := pendingId2 }, true, [])
  else if !s.dbusValid then
    (s, false, [⟨false, Event.sigError h⟩])
  else
    (setHandle s h { n with m_watcher := some freshTok, m_id := pendingId },
      true, [⟨false, Event.notify n.m_id n.m_title n.m_msg⟩])

/-- Source: `bool DBusNotification::show(const QString &message)` — set the body,
then `show()`. -/
def showMessage (s : SysState) (h : Nat) (message : String) (freshTok : Nat) :
    SysState × Bool × List TEvent :=
  show' (setHandle s h { s.handles h with m_msg := message }) h freshTok

/-- Source: `QString::startsWith` of the source's `m_msg.startsWith(QStringLiteral("•"))`:
the body begins with the given character sequence. -/
def strStartsWith (msg pre : String) : Bool :=
  pre.data.isPrefixOf msg.data

/-- Source: `bool DBusNotification::update(const QString &line)` — replace the body
when neither pending nor visible (`(!isPending() && !isVisible())`) or when
it is empty (`m_msg.isEmpty()`); otherwise bullet the existing body first if
it does not already start with "•" (`m_msg.insert(0, "• ")`) and append
`"\n• "` and `line`; then `show()`. -/
def update (s : SysState) (h : Nat) (line : String) (freshTok : Nat) :
    SysState × Bool × List TEvent :=
  let n := s.handles h
  let newMsg :=
    if (isPending n = false ∧ isVisible n = false) ∨ n.m_msg = ("") then
      line
    else
      let prefixed :=
        if strStartsWith n.m_msg ("•") = false then ("• ") ++ n.m_msg else n.m_msg
      prefixed ++ ("\n• ") ++ line
  show' (setHandle s h { n with m_msg := newMsg }) h freshTok

/-- Source: `bool DBusNotification::hide()` — `if (m_id) { CloseNotification(m_id);
return true; } return false;`; no member is written. -/
def hide (s : SysState) (h : Nat) : SysState × Bool × List TEvent :=
  let n := s.handles h
  if n.m_id ≠ 0 then
    (s, true, [⟨false, Event.closeNotification n.m_id⟩])
  else
    (s, false, [])

/-- Source: `void DBusNotification::handleNotifyResult(QDBusPendingCallWatcher *)` —
discard on watcher mismatch; on error reset to `initialId` and emit `error`;
on success record `needsUpdate`, store the returned identifier, register it
under the lock (the `QMutexLocker` block closes before any emission), emit
`shown`, and re-`show()` when an update was coalesced. -/
def handleNotifyResult (s : SysState) (h : Nat) (watcher : Nat)
    (reply : Except Unit IDType) (freshTok : Nat) : SysState × List TEvent :=
  let n := s.handles h
  if some watcher ≠ n.m_watcher then
    (s, [])
  else
    let n1 := { n with m_watcher := none }
    match reply with
    | Except.error _ =>
      (setHandle s h { n1 with m_id := initialId }, [⟨false, Event.sigError h⟩])
    | Except.ok id =>
      let needsUpdate := n1.m_id == pendingId2
      let s1 := setHandle s h { n1 with m_id := id }
      let s2 := { s1 with registry := mapInsert s1.registry id h }
      if needsUpdate then
        let r := show' s2 h freshTok
        (r.1, ⟨false, Event.sigShown h⟩ :: r.2.2)
      else
        (s2, [⟨false, Event.sigShown h⟩])

/-- Modelled from the spec: the numeric values behind
`static_cast<NotificationCloseReason>(reason)` live in the missing header;
the spec fixes `reasonCode ∈ {1=Expired, 2=Dismissed, 3=ClosedByRequest}`. -/
def closeReasonOfCode (c : Nat) : NotificationCloseReason :=
  if c = 1 then NotificationCloseReason.Expired
  else if c = 2 then NotificationCloseReason.Dismissed
  else if c = 3 then NotificationCloseReason.ClosedByRequest
  else NotificationCloseReason.Undefined

/-- Source: `reason >= 1 && reason <= 3 ? static_cast<NotificationCloseReason>(reason)
    : NotificationCloseReason::Undefined` -/
def decodeReason (reason : Nat) : NotificationCloseReason :=
  if 1 ≤ reason ∧ reason ≤ 3 then closeReasonOfCode reason
  else NotificationCloseReason.Undefined

/-- Source: `void DBusNotification::handleNotificationClosed(IDType, uint)` — the
`QMutexLocker` spans the whole body, so the `closed` emission happens under
the lock; unknown identifiers are ignored. -/
def handleNotificationClosed (s : SysState) (id : IDType) (reason : Nat) :
    SysState × List TEvent :=
  match mapLookup s.registry id with
  | none => (s, [])
  | some h =>
    let s1 := setHandle s h { s.handles h with m_id := initialId }
    let s2 := { s1 with registry := mapErase s1.registry id }
    (s2, [⟨true, Event.sigClosed h (decodeReason reason)⟩])

/-- Source: `void DBusNotification::handleActionInvoked(IDType, const QString &)` —
the `QMutexLocker` spans the whole body: `actionInvoked` and `closed` are
emitted and, after deregistering, `CloseNotification` is called, all while
the lock is held. (The source passes `i->first` — the found key, equal to
`id` — to `CloseNotification`.) Unknown identifiers are ignored. -/
def handleActionInvoked (s : SysState) (id : IDType) (action : String) :
    SysState × List TEvent :=
  match mapLookup s.registry id with
  | none => (s, [])
  | some h =>
    let s1 := setHandle s h { s.handles h with m_id := initialId }
    let s2 := { s1 with registry := mapErase s1.registry id }
    (s2,
      [⟨true, Event.sigActionInvoked h action⟩,
        ⟨true, Event.sigClosed h NotificationCloseReason.ActionInvoked⟩,
        ⟨true, Event.closeNotification id⟩])

/-- Number of outbound `Notify` dispatches in an event list. -/
def countNotify : List TEvent → Nat
  | [] => 0
  | e :: rest =>
    (match e.ev with
      | Event.notify _ _ _ => 1
      | _ => 0) + countNotify rest

/-!
The image codec (`SwappedImage`, `NotificationImage`,
`NotificationImage::toQImage`). A `QImage` is embedded as its size, its
format and its pixel sequence; a pixel carries the four channel samples. The
raw byte buffer `data` of `NotificationImage` is abstracted as the pixel
sequence it encodes — exact for the 32-bit-per-pixel formats the round-trip
concerns, where `QImage(bits, w, h, format)` reads back precisely the pixel
words that `image.bits()` produced.
-/

/-- One pixel: red, green, blue and alpha samples. -/
structure Pix where
  r : Nat
  g : Nat
  b : Nat
  a : Nat
deriving DecidableEq, Repr

/-- The `QImage` formats the codec distinguishes: `Format_RGB32`,
`Format_ARGB32` (the two 32-bit formats `toQImage` reconstructs),
grayscale/indexed 8-bit formats, and the invalid format of a
default-constructed `QImage()`. -/
inductive QImageFormat where
  | Invalid
  | RGB32
  | ARGB32
  | Grayscale8
  | Indexed8
deriving DecidableEq, Repr

/-- Embedded `QImage`. -/
structure QImageM where
  width : Nat
  height : Nat
  format : QImageFormat
  pixels : List Pix
deriving DecidableEq, Repr

/-- Source: `QImage::isNull()` — width or height is zero. -/
def QImageM.isNull (img : QImageM) : Bool :=
  img.width == 0 || img.height == 0

/-- Source: `QImage()` — the null image. -/
def nullQImage : QImageM :=
  { width := 0, height := 0, format := QImageFormat.Invalid, pixels := [] }

/-- Source: `QImage::hasAlphaChannel()` over the modelled formats. -/
def QImageM.hasAlphaChannel (img : QImageM) : Bool :=
  img.format == QImageFormat.ARGB32

/-- Source: `QImage::depth()` — bits per pixel of the format. -/
def QImageM.depth (img : QImageM) : Nat :=
  match img.format with
  | QImageFormat.Invalid => 0
  | QImageFormat.RGB32 => 32
  | QImageFormat.ARGB32 => 32
  | QImageFormat.Grayscale8 => 8
  | QImageFormat.Indexed8 => 8

/-- Source: `QImage::isGrayscale()` — all colors are shades of gray (red, green and
blue samples equal in every pixel; vacuously true for a null image, as in
Qt). -/
def QImageM.isGrayscale (img : QImageM) : Bool :=
  img.pixels.all (fun p => p.r == p.g && p.g == p.b)

/-- Swap the red and blue samples of one pixel. -/
def swapPix (p : Pix) : Pix :=
  { p with r := p.b, b := p.r }

/-- Source: `QImage::rgbSwapped()` — red/blue swapped in every pixel. -/
def QImageM.rgbSwapped (img : QImageM) : QImageM :=
  { img with pixels := img.pixels.map swapPix }

/-- Source: `SwappedImage::SwappedImage(const QImage &image) : QImage(image.rgbSwapped())`. -/
def SwappedImage (image : QImageM) : QImageM :=
  image.rgbSwapped

/-- The wire structure `NotificationImage`: width, height, rowstride,
has-alpha, channels, bits-per-sample, raw data and the validity flag, in the
source's declaration order. -/
structure NotificationImage where
  width : Int
  height : Int
  rowstride : Int
  hasAlpha : Bool
  channels : Int
  bitsPerSample : Int
  data : List Pix
  isValid : Bool
deriving DecidableEq, Repr

/-- Source: `NotificationImage::NotificationImage(const QImage &image)` — the private
constructor: channels is 1 for grayscale else 4 with alpha else 3;
bits-per-sample is `depth / channels` (C++ integer division); rowstride is
`QImage::bytesPerLine()`, rows padded to 4-byte boundaries; `isValid` is
`!image.isNull()`. -/
def NotificationImage.ofQImage (image : QImageM) : NotificationImage :=
  let hasAlpha := image.hasAlphaChannel
  let channels : Int := if image.isGrayscale then 1 else if hasAlpha then 4 else 3
  { width := (image.width : Int)
    height := (image.height : Int)
    rowstride := ((((image.width : Int)) * (image.depth : Int) + 31) / 32) * 4
    hasAlpha := hasAlpha
    channels := channels
    bitsPerSample := (image.depth : Int) / channels
    data := image.pixels
    isValid := !image.isNull }

/-- Source: `NotificationImage::NotificationImage(SwappedImage image)` followed by
`setImage`'s `NotificationImage(SwappedImage(image))`: the encoder. -/
def encodeImage (image : QImageM) : NotificationImage :=
  NotificationImage.ofQImage (SwappedImage image)

/-- Source: `QImage NotificationImage::toQImage() const` — when valid, rebuild a
`Format_ARGB32`/`Format_RGB32` image from the raw bytes and swap red/blue
back; otherwise `QImage()`. -/
def NotificationImage.toQImage (n : NotificationImage) : QImageM :=
  if n.isValid then
    QImageM.rgbSwapped
      { width := n.width.toNat
        height := n.height.toNat
        format := if n.hasAlpha then QImageFormat.ARGB32 else QImageFormat.RGB32
        pixels := n.data }
  else nullQImage

/-!
Concrete states used by witnesses and counterexamples.
-/

/-- A handle holding daemon identifier 7, title "Build" and body "Started". -/
def exampleHandle : Notification :=
  { m_id := 7, m_title := "Build", m_msg := "Started", m_watcher := none }

/-- Identifier 7 assigned and registered, daemon unreachable. -/
def stateOffline : SysState :=
  { handles := fun _ => exampleHandle, registry := [(7, 0)], dbusValid := false }

/-- Identifier 7 assigned and registered, daemon reachable. -/
def stateAssigned : SysState :=
  { handles := fun _ => exampleHandle, registry := [(7, 0)], dbusValid := true }

/-- A show-request outstanding (`m_id = pendingId`, watcher token 1). -/
def statePending : SysState :=
  { handles := fun _ =>
      { m_id := pendingId, m_title := "Build", m_msg := "Started", m_watcher := some 1 },
    registry := [], dbusValid := true }

/-- A freshly constructed handle, daemon reachable. -/
def stateNew : SysState :=
  { handles := fun _ =>
      { m_id := initialId, m_title := "Build", m_msg := "", m_watcher := none },
    registry := [], dbusValid := true }

/-- Identifier 7 assigned, body already bulleted. -/
def stateBulleted : SysState :=
  { handles := fun _ =>
      { m_id := 7, m_title := "Build", m_msg := "• Started", m_watcher := none },
    registry := [(7, 0)], dbusValid := true }

/-- A 2×2 ARGB32 image with distinct red/blue samples. -/
def exampleImage : QImageM :=
  { width := 2, height := 2, format := QImageFormat.ARGB32,
    pixels := [⟨1, 2, 3, 4⟩, ⟨5, 6, 7, 8⟩, ⟨9, 10, 11, 12⟩, ⟨200, 100, 50, 255⟩] }

/-!
Helper lemmas shared across the claims.
-/

theorem pendingId_eq : pendingId = 4294967295 := by
  norm_num [pendingId]

theorem pendingId2_eq : pendingId2 = 4294967294 := by
  norm_num [pendingId2, pendingId]

theorem setHandle_same (s : SysState) (h : Nat) (n : Notification) :
    (setHandle s h n).handles h = n := by
  simp [setHandle]

theorem mapLookup_insert (m : List (IDType × Nat)) (id : IDType) (v : Nat) :
    mapLookup (mapInsert m id v) id = some v := by
  induction m with
  | nil => simp [mapInsert, mapLookup]
  | cons e rest ih =>
    obtain ⟨k, w⟩ := e
    by_cases hk : k = id
    · simp [mapInsert, mapLookup, hk]
    · simp [mapInsert, mapLookup, hk, ih]

theorem mapLookup_erase (m : List (IDType × Nat)) (id : IDType) :
    mapLookup (mapErase m id) id = none := by
  induction m with
  | nil => rfl
  | cons e rest ih =>
    obtain ⟨k, w⟩ := e
    by_cases hk : k = id
    · simpa [mapErase, hk] using ih
    · simpa [mapErase, mapLookup, hk] using ih

theorem show'_msg (s : SysState) (h : Nat) (ft : Nat) :
    ((show' s h ft).1.handles h).m_msg = (s.handles h).m_msg := by
  cases hp : isPending (s.handles h) with
  | true => simp [show', hp, setHandle]
  | false =>
    cases hv : s.dbusValid with
    | true => simp [show', hp, hv, setHandle]
    | false => simp [show', hp, hv]

theorem swapPix_swapPix (p : Pix) : swapPix (swapPix p) = p := by
  cases p
  rfl

theorem map_swapPix_swapPix (l : List Pix) : (l.map swapPix).map swapPix = l := by
  induction l with
  | nil => rfl
  | cons p rest ih => simp [swapPix_swapPix, ih]

theorem map_swapPix_comp (l : List Pix) : List.map (swapPix ∘ swapPix) l = l := by
  induction l with
  | nil => rfl
  | cons p rest ih => simp [Function.comp, swapPix_swapPix, ih]

/-- Claim C9: `hide()` sends a `CloseNotification` request and returns true
iff the handle's identifier is non-zero; on an `Unassigned` handle it returns
false and sends nothing; and in either case it never changes the state
synchronously. -/
theorem C9_hide_characterization (s : SysState) (h : Nat) :
    (hide s h).1 = s ∧
    ((hide s h).2.1 = true ↔ (s.handles h).m_id ≠ 0) ∧
    (hide s h).2.2 =
      (if (s.handles h).m_id ≠ 0 then
        [⟨false, Event.closeNotification (s.handles h).m_id⟩]
      else []) := by
  by_cases hz : (s.handles h).m_id ≠ 0
  · simp [hide, hz]
  · simp [hide, hz]

/-- Claim C2, counterexample: with the daemon unreachable and the handle
holding the assigned (non-pending) identifier 7, `show()` emits `error` and
returns false but leaves `m_id = 7` — it does not reset the state to
`Unassigned` (identifier 0). -/
theorem C2_counterexample :
    isPending (stateOffline.handles 0) = false ∧
    stateOffline.dbusValid = false ∧
    (show' stateOffline 0 1).2.1 = false ∧
    (show' stateOffline 0 1).2.2 = [⟨false, Event.sigError 0⟩] ∧
    ((show' stateOffline 0 1).1.handles 0).m_id = 7 := by
  decide

/-- Claim C2 as amended: if `show()` is called when the handle is not pending
and the transport is unavailable, it emits `error`, returns false and leaves
the whole state (in particular the identifier) unchanged. -/
theorem C2_show_unavailable (s : SysState) (h ft : Nat)
    (hp : isPending (s.handles h) = false) (hv : s.dbusValid = false) :
    show' s h ft = (s, false, [⟨false, Event.sigError h⟩]) := by
  simp [show', hp, hv]

theorem C2_show_unavailable_witness :
    isPending (stateOffline.handles 0) = false ∧
    stateOffline.dbusValid = false ∧
    show' stateOffline 0 1 = (stateOffline, false, [⟨false, Event.sigError 0⟩]) :=
  ⟨by decide, by decide, C2_show_unavailable stateOffline 0 1 (by decide) (by decide)⟩

/-- Claim C4: evaluating `handleActionInvoked` on a registered identifier
shows the outbound `CloseNotification` call being produced while
`pendingNotificationsMutex` is held (the `QMutexLocker` spans the whole
handler body in the source), contradicting the claim that no outbound IPC
call is ever made under the registry lock. -/
theorem C4_close_under_lock :
    (handleActionInvoked stateAssigned 7 ("retry")).2 =
      [⟨true, Event.sigActionInvoked 0 ("retry")⟩,
        ⟨true, Event.sigClosed 0 NotificationCloseReason.ActionInvoked⟩,
        ⟨true, Event.closeNotification 7⟩] ∧
    ∃ e ∈ (handleActionInvoked stateAssigned 7 ("retry")).2,
      isOutbound e.ev = true ∧ e.lockHeld = true := by
  decide

/-- Claim C6: on `NotificationClosed(id, reason)` with `id` registered, the
owning handle's identifier is reset to `initialId`, the `closed` signal is
emitted with the decoded reason, and `id` is removed from the registry; an
unregistered `id` changes nothing and emits nothing; the reason codes 1, 2, 3
decode to `Expired`, `Dismissed`, `ClosedByRequest` and every other code to
`Undefined`. -/
theorem C6_notification_closed :
    (∀ (s : SysState) (id : IDType) (reason : Nat) (h : Nat),
        mapLookup s.registry id = some h →
        ((handleNotificationClosed s id reason).1.handles h).m_id = initialId ∧
        mapLookup (handleNotificationClosed s id reason).1.registry id = none ∧
        (handleNotificationClosed s id reason).2 =
          [⟨true, Event.sigClosed h (decodeReason reason)⟩]) ∧
    (∀ (s : SysState) (id : IDType) (reason : Nat),
        mapLookup s.registry id = none →
        handleNotificationClosed s id reason = (s, [])) ∧
    decodeReason 1 = NotificationCloseReason.Expired ∧
    decodeReason 2 = NotificationCloseReason.Dismissed ∧
    decodeReason 3 = NotificationCloseReason.ClosedByRequest ∧
    (∀ reason : Nat, reason ≠ 1 → reason ≠ 2 → reason ≠ 3 →
        decodeReason reason = NotificationCloseReason.Undefined) := by
  refine ⟨?_, ?_, by decide, by decide, by decide, ?_⟩
  · intro s id reason h hl
    refine ⟨?_, ?_, ?_⟩
    · simp [handleNotificationClosed, hl, setHandle]
    · simp [handleNotificationClosed, hl, setHandle, mapLookup_erase]
    · simp [handleNotificationClosed, hl]
  · intro s id reason hl
    simp [handleNotificationClosed, hl]
  · intro reason h1 h2 h3
    have hr : ¬ (1 ≤ reason ∧ reason ≤ 3) := by omega
    simp [decodeReason, hr]

theorem C6_notification_closed_witness :
    mapLookup stateAssigned.registry 7 = some 0 ∧
    (((handleNotificationClosed stateAssigned 7 2).1.handles 0).m_id = initialId ∧
      mapLookup (handleNotificationClosed stateAssigned 7 2).1.registry 7 = none ∧
      (handleNotificationClosed stateAssigned 7 2).2 =
        [⟨true, Event.sigClosed 0 (decodeReason 2)⟩]) ∧
    decodeReason 5 = NotificationCloseReason.Undefined :=
  ⟨by decide, C6_notification_closed.1 stateAssigned 7 2 0 (by decide),
    C6_notification_closed.2.2.2.2.2 5 (by decide) (by decide) (by decide)⟩

/-- Claim C3: on `ActionInvoked(id, actionId)` with `id` registered, the
owning handle emits `actionInvoked(actionId)` then `closed(ActionInvoked)`,
its identifier is reset to `initialId`, `id` is deregistered, and an explicit
`CloseNotification` for that same `id` goes to the transport; an unregistered
`id` changes nothing and emits nothing. -/
theorem C3_action_invoked :
    (∀ (s : SysState) (id : IDType) (action : String) (h : Nat),
        mapLookup s.registry id = some h →
        ((handleActionInvoked s id action).1.handles h).m_id = initialId ∧
        mapLookup (handleActionInvoked s id action).1.registry id = none ∧
        (handleActionInvoked s id action).2 =
          [⟨true, Event.sigActionInvoked h action⟩,
            ⟨true, Event.sigClosed h NotificationCloseReason.ActionInvoked⟩,
            ⟨true, Event.closeNotification id⟩]) ∧
    (∀ (s : SysState) (id : IDType) (action : String),
        mapLookup s.registry id = none →
        handleActionInvoked s id action = (s, [])) := by
  constructor
  · intro s id action h hl
    refine ⟨?_, ?_, ?_⟩
    · simp [handleActionInvoked, hl, setHandle]
    · simp [handleActionInvoked, hl, setHandle, mapLookup_erase]
    · simp [handleActionInvoked, hl]
  · intro s id action hl
    simp [handleActionInvoked, hl]

theorem C3_action_invoked_witness :
    mapLookup stateAssigned.registry 7 = some 0 ∧
    (((handleActionInvoked stateAssigned 7 ("retry")).1.handles 0).m_id = initialId ∧
      mapLookup (handleActionInvoked stateAssigned 7 ("retry")).1.registry 7 = none ∧
      (handleActionInvoked stateAssigned 7 ("retry")).2 =
        [⟨true, Event.sigActionInvoked 0 ("retry")⟩,
          ⟨true, Event.sigClosed 0 NotificationCloseReason.ActionInvoked⟩,
          ⟨true, Event.closeNotification 7⟩]) :=
  ⟨by decide, C3_action_invoked.1 stateAssigned 7 ("retry") 0 (by decide)⟩

/-- Claim C5: a Notify reply whose watcher token differs from the handle's
outstanding one is discarded without any change; a transport-level error
resets the identifier to `initialId` and emits `error`; a successful reply
(from the plain pending state) registers the returned identifier for the
handle, stores it as the handle's identifier and emits `shown`. -/
theorem C5_notify_reply :
    (∀ (s : SysState) (h watcher : Nat) (reply : Except Unit IDType) (ft : Nat),
        some watcher ≠ (s.handles h).m_watcher →
        handleNotifyResult s h watcher reply ft = (s, [])) ∧
    (∀ (s : SysState) (h watcher ft : Nat),
        (s.handles h).m_watcher = some watcher →
        handleNotifyResult s h watcher (Except.error ()) ft
          = (setHandle s h
              { s.handles h with m_watcher := none, m_id := initialId },
            [⟨false, Event.sigError h⟩])) ∧
    (∀ (s : SysState) (h watcher : Nat) (id : IDType) (ft : Nat),
        (s.handles h).m_watcher = some watcher →
        (s.handles h).m_id = pendingId →
        mapLookup (handleNotifyResult s h watcher (Except.ok id) ft).1.registry id
            = some h ∧
        ((handleNotifyResult s h watcher (Except.ok id) ft).1.handles h).m_id
            = id ∧
        (handleNotifyResult s h watcher (Except.ok id) ft).2
            = [⟨false, Event.sigShown h⟩]) := by
  refine ⟨?_, ?_, ?_⟩
  · intro s h watcher reply ft hw
    simp [handleNotifyResult, hw]
  · intro s h watcher ft hw
    simp [handleNotifyResult, hw]
  · intro s h watcher id ft hw hm
    have hne : (pendingId == pendingId2) = false := by decide
    refine ⟨?_, ?_, ?_⟩
    · simp [handleNotifyResult, hw, hm, hne, mapLookup_insert]
    · simp [handleNotifyResult, hw, hm, hne, setHandle]
    · simp [handleNotifyResult, hw, hm, hne]

theorem C5_notify_reply_witness :
    (statePending.handles 0).m_watcher = some 1 ∧
    (statePending.handles 0).m_id = pendingId ∧
    (mapLookup (handleNotifyResult statePending 0 1 (Except.ok 7) 2).1.registry 7
        = some 0 ∧
      ((handleNotifyResult statePending 0 1 (Except.ok 7) 2).1.handles 0).m_id = 7 ∧
      (handleNotifyResult statePending 0 1 (Except.ok 7) 2).2
        = [⟨false, Event.sigShown 0⟩]) ∧
    handleNotifyResult statePending 0 9 (Except.ok 7) 2 = (statePending, []) :=
  ⟨by decide, by decide,
    C5_notify_reply.2.2 statePending 0 1 7 2 (by decide) (by decide),
    C5_notify_reply.1 statePending 0 9 (Except.ok 7) 2 (by decide)⟩

/-- Claim C1: `show()` on a pending handle dispatches nothing, moves the
identifier to the coalesced sentinel and returns true; `show()` on a
non-pending handle with the transport available dispatches exactly one
`Notify` and leaves the handle pending (so a further `show()` is coalesced);
and a successful reply (carrying a non-sentinel identifier, transport
available) triggers exactly one follow-up `Notify` iff the handle was in the
coalesced-pending state. -/
theorem C1_show_coalescing :
    (∀ (s : SysState) (h ft : Nat),
        isPending (s.handles h) = true →
        show' s h ft
          = (setHandle s h { s.handles h with m_id := pendingId2 }, true, [])) ∧
    (∀ (s : SysState) (h ft : Nat),
        isPending (s.handles h) = false → s.dbusValid = true →
        (show' s h ft).2.1 = true ∧
        countNotify (show' s h ft).2.2 = 1 ∧
        isPending ((show' s h ft).1.handles h) = true) ∧
    (∀ (s : SysState) (h watcher : Nat) (id : IDType) (ft : Nat),
        (s.handles h).m_watcher = some watcher →
        s.dbusValid = true →
        id ≠ pendingId → id ≠ pendingId2 →
        countNotify (handleNotifyResult s h watcher (Except.ok id) ft).2
          = if (s.handles h).m_id = pendingId2 then 1 else 0) := by
  refine ⟨?_, ?_, ?_⟩
  · intro s h ft hp
    simp [show', hp]
  · intro s h ft hp hv
    have hp' : ¬ ((s.handles h).m_id = pendingId ∨ (s.handles h).m_id = pendingId2) := by
      simpa [isPending] using hp
    simp [show', hv, countNotify, setHandle, isPending, hp']
  · intro s h watcher id ft hw hv hid1 hid2
    by_cases hm : (s.handles h).m_id = pendingId2
    · have hb : ((s.handles h).m_id == pendingId2) = true := by
        simp [hm]
      have hnp : isPending { s.handles h with m_watcher := none, m_id := id } = false := by
        simp [isPending, hid1, hid2]
      simp [handleNotifyResult, hw, hb, hm, show', setHandle, isPending, hid1, hid2,
        hv, countNotify]
    · have hb : ((s.handles h).m_id == pendingId2) = false := by
        simp [hm]
      simp [handleNotifyResult, hw, hb, hm, countNotify]

theorem C1_show_coalescing_witness :
    isPending (statePending.handles 0) = true ∧
    show' statePending 0 2
      = (setHandle statePending 0
          { statePending.handles 0 with m_id := pendingId2 }, true, []) ∧
    countNotify (show' stateNew 0 2).2.2 = 1 ∧
    countNotify (handleNotifyResult statePending 0 1 (Except.ok 7) 2).2
      = if (statePending.handles 0).m_id = pendingId2 then 1 else 0 :=
  ⟨by decide, C1_show_coalescing.1 statePending 0 2 (by decide),
    (C1_show_coalescing.2.1 stateNew 0 2 (by decide) (by decide)).2.1,
    C1_show_coalescing.2.2 statePending 0 1 7 2 (by decide) (by decide)
      (by decide) (by decide)⟩

/-- Claim C7: `update(line)` replaces the body by `line` when the handle is
neither pending nor visible or the body is empty; otherwise it prefixes the
body with "• " unless it already starts with "•" and appends a newline, "• "
and `line`; in every case it then behaves exactly as `show()` on the state
with the updated body, so the body is updated regardless of dispatch
success. -/
theorem C7_update_policy :
    (∀ (s : SysState) (h : Nat) (line : String) (ft : Nat),
        ((isPending (s.handles h) = false ∧ isVisible (s.handles h) = false) ∨
            (s.handles h).m_msg = ("")) →
        update s h line ft
            = show' (setHandle s h { s.handles h with m_msg := line }) h ft ∧
        ((update s h line ft).1.handles h).m_msg = line) ∧
    (∀ (s : SysState) (h : Nat) (line : String) (ft : Nat),
        (isPending (s.handles h) = true ∨ isVisible (s.handles h) = true) →
        (s.handles h).m_msg ≠ ("") →
        strStartsWith (s.handles h).m_msg ("•") = false →
        update s h line ft
            = show' (setHandle s h
                { s.handles h with
                    m_msg := ("• ") ++ (s.handles h).m_msg ++ ("\n• ") ++ line })
                h ft ∧
        ((update s h line ft).1.handles h).m_msg
            = ("• ") ++ (s.handles h).m_msg ++ ("\n• ") ++ line) ∧
    (∀ (s : SysState) (h : Nat) (line : String) (ft : Nat),
        (isPending (s.handles h) = true ∨ isVisible (s.handles h) = true) →
        (s.handles h).m_msg ≠ ("") →
        strStartsWith (s.handles h).m_msg ("•") = true →
        update s h line ft
            = show' (setHandle s h
                { s.handles h with
                    m_msg := (s.handles h).m_msg ++ ("\n• ") ++ line }) h ft ∧
        ((update s h line ft).1.handles h).m_msg
            = (s.handles h).m_msg ++ ("\n• ") ++ line) := by
  refine ⟨?_, ?_, ?_⟩
  · intro s h line ft hcond
    have heq : update s h line ft
        = show' (setHandle s h { s.handles h with m_msg := line }) h ft := by
      rcases hcond with ⟨h1, h2⟩ | h2
      · simp [update, h1, h2]
      · simp [update, h2]
    refine ⟨heq, ?_⟩
    rw [heq, show'_msg, setHandle_same]
  · intro s h line ft hp hm hsw
    have hc : ¬ ((isPending (s.handles h) = false ∧ isVisible (s.handles h) = false) ∨
        (s.handles h).m_msg = ("")) := by
      rcases hp with h1 | h1 <;> simp [h1, hm]
    have heq : update s h line ft
        = show' (setHandle s h
            { s.handles h with
                m_msg := ("• ") ++ (s.handles h).m_msg ++ ("\n• ") ++ line }) h ft := by
      simp [update, hc, hsw]
    refine ⟨heq, ?_⟩
    rw [heq, show'_msg, setHandle_same]
  · intro s h line ft hp hm hsw
    have hc : ¬ ((isPending (s.handles h) = false ∧ isVisible (s.handles h) = false) ∨
        (s.handles h).m_msg = ("")) := by
      rcases hp with h1 | h1 <;> simp [h1, hm]
    have heq : update s h line ft
        = show' (setHandle s h
            { s.handles h with
                m_msg := (s.handles h).m_msg ++ ("\n• ") ++ line }) h ft := by
      simp [update, hc, hsw]
    refine ⟨heq, ?_⟩
    rw [heq, show'_msg, setHandle_same]

theorem C7_update_policy_witness :
    ((update stateNew 0 ("Started") 1).1.handles 0).m_msg = ("Started") ∧
    ((update stateAssigned 0 ("Step 2") 1).1.handles 0).m_msg
        = ("• Started\n• Step 2") ∧
    ((update stateBulleted 0 ("Step 2") 1).1.handles 0).m_msg
        = ("• Started\n• Step 2") :=
  ⟨(C7_update_policy.1 stateNew 0 ("Started") 1 (Or.inl ⟨by decide, by decide⟩)).2,
    ((C7_update_policy.2.1 stateAssigned 0 ("Step 2") 1 (Or.inr (by decide))
        (by decide) (by decide)).2).trans (by decide),
    ((C7_update_policy.2.2 stateBulleted 0 ("Step 2") 1 (Or.inr (by decide))
        (by decide) (by decide)).2).trans (by decide)⟩

/-- Claim C8: for every non-null, non-grayscale image of an RGB or RGBA
32-bit format, decoding (`toQImage`) the wire image built from the
red/blue-swapped bitmap (the `setImage`/`NotificationImage` path) reproduces
the bitmap exactly; and decoding a `NotificationImage` whose validity flag is
false yields the null image. -/
theorem C8_image_roundtrip :
    (∀ b : QImageM, b.isNull = false → b.isGrayscale = false →
        (b.format = QImageFormat.RGB32 ∨ b.format = QImageFormat.ARGB32) →
        (encodeImage b).toQImage = b) ∧
    (∀ n : NotificationImage, n.isValid = false → n.toQImage = nullQImage) := by
  constructor
  · intro b hnull hgray hf
    obtain ⟨w, hgt, f, px⟩ := b
    simp [QImageM.isNull] at hnull
    rcases hf with hf | hf
    · replace hf : f = QImageFormat.RGB32 := hf
      subst hf
      simp [encodeImage, SwappedImage, QImageM.rgbSwapped,
        NotificationImage.ofQImage, NotificationImage.toQImage, QImageM.isNull,
        QImageM.hasAlphaChannel, map_swapPix_comp, hnull]
    · replace hf : f = QImageFormat.ARGB32 := hf
      subst hf
      simp [encodeImage, SwappedImage, QImageM.rgbSwapped,
        NotificationImage.ofQImage, NotificationImage.toQImage, QImageM.isNull,
        QImageM.hasAlphaChannel, map_swapPix_comp, hnull]
  · intro n hv
    simp [NotificationImage.toQImage, hv]

theorem C8_image_roundtrip_witness :
    exampleImage.isNull = false ∧
    exampleImage.isGrayscale = false ∧
    exampleImage.format = QImageFormat.ARGB32 ∧
    (encodeImage exampleImage).toQImage = exampleImage ∧
    NotificationImage.toQImage
        { width := 2, height := 2, rowstride := 8, hasAlpha := true,
          channels := 4, bitsPerSample := 8, data := [], isValid := false }
      = nullQImage :=
  ⟨by decide, by decide, by decide,
    C8_image_roundtrip.1 exampleImage (by decide) (by decide) (Or.inr (by decide)),
    C8_image_roundtrip.2
      { width := 2, height := 2, rowstride := 8, hasAlpha := true,
        channels := 4, bitsPerSample := 8, data := [], isValid := false } (by decide)⟩

/-- Claim C10, counterexample: `handleNotifyResult` stores the
daemon-returned identifier unchecked, so a successful reply carrying the
identifier 0 (which is smaller than `2 ^ 32 - 2`) leaves the handle
reporting neither pending nor visible — refuting the claim that every
identifier below `2 ^ 32 - 2` yields a not-pending *and visible* handle. -/
theorem C10_counterexample :
    (0 : Nat) < pendingId2 ∧
    ((handleNotifyResult statePending 0 1 (Except.ok 0) 2).1.handles 0).m_id = 0 ∧
    isPending ((handleNotifyResult statePending 0 1 (Except.ok 0) 2).1.handles 0)
        = false ∧
    isVisible ((handleNotifyResult statePending 0 1 (Except.ok 0) 2).1.handles 0)
        = false := by
  decide

theorem handleNotifyResult_store (s : SysState) (h watcher : Nat) (id : IDType)
    (ft : Nat) (hw : (s.handles h).m_watcher = some watcher)
    (hm : (s.handles h).m_id = pendingId) :
    (handleNotifyResult s h watcher (Except.ok id) ft).1.handles h
      = { s.handles h with m_watcher := none, m_id := id } := by
  have hb : ((s.handles h).m_id == pendingId2) = false := by
    rw [hm]
    decide
  simp [handleNotifyResult, hw, hb, setHandle]

/-- Claim C10 as amended: the pending states are encoded as the two largest
32-bit identifier values (`2 ^ 32 - 1` for `PendingSingle`, `2 ^ 32 - 2` for
`PendingCoalesced`) in the same field as daemon identifiers, and
`handleNotifyResult` stores the returned identifier unchecked; hence a
successful reply carrying `0 < id < 2 ^ 32 - 2` leaves the handle not-pending
and visible, a reply carrying 0 leaves it neither pending nor visible
(unassigned), and a reply carrying `2 ^ 32 - 1` or `2 ^ 32 - 2` would leave
it reporting pending instead of assigned. -/
theorem C10_sentinel_encoding :
    pendingId = 2 ^ 32 - 1 ∧ pendingId2 = 2 ^ 32 - 2 ∧
    (∀ (s : SysState) (h watcher : Nat) (id : Nat) (ft : Nat),
        (s.handles h).m_watcher = some watcher →
        (s.handles h).m_id = pendingId →
        ((handleNotifyResult s h watcher (Except.ok id) ft).1.handles h).m_id = id) ∧
    (∀ (s : SysState) (h watcher : Nat) (id : Nat) (ft : Nat),
        (s.handles h).m_watcher = some watcher →
        (s.handles h).m_id = pendingId →
        0 < id → id < pendingId2 →
        isPending ((handleNotifyResult s h watcher (Except.ok id) ft).1.handles h)
            = false ∧
        isVisible ((handleNotifyResult s h watcher (Except.ok id) ft).1.handles h)
            = true) ∧
    (∀ (s : SysState) (h watcher : Nat) (id : Nat) (ft : Nat),
        (s.handles h).m_watcher = some watcher →
        (s.handles h).m_id = pendingId →
        (id = pendingId ∨ id = pendingId2) →
        isPending ((handleNotifyResult s h watcher (Except.ok id) ft).1.handles h)
            = true) := by
  refine ⟨rfl, by norm_num [pendingId2_eq], ?_, ?_, ?_⟩
  · intro s h watcher id ft hw hm
    rw [handleNotifyResult_store s h watcher id ft hw hm]
  · intro s h watcher id ft hw hm hpos hlt
    rw [pendingId2_eq] at hlt
    have h1 : id ≠ pendingId := by
      rw [pendingId_eq]
      omega
    have h2 : id ≠ pendingId2 := by
      rw [pendingId2_eq]
      omega
    have h0 : id ≠ 0 := by omega
    rw [handleNotifyResult_store s h watcher id ft hw hm]
    simp [isPending, isVisible, initialId, h0, h1, h2]
  · intro s h watcher id ft hw hm hid
    rw [handleNotifyResult_store s h watcher id ft hw hm]
    rcases hid with hid | hid <;> simp [isPending, hid]

theorem C10_sentinel_encoding_witness :
    ((handleNotifyResult statePending 0 1 (Except.ok 7) 2).1.handles 0).m_id = 7 ∧
    isVisible ((handleNotifyResult statePending 0 1 (Except.ok 7) 2).1.handles 0)
        = true ∧
    isPending
        ((handleNotifyResult statePending 0 1 (Except.ok pendingId) 2).1.handles 0)
        = true :=
  ⟨C10_sentinel_encoding.2.2.1 statePending 0 1 7 2 (by decide) (by decide),
    (C10_sentinel_encoding.2.2.2.1 statePending 0 1 7 2 (by decide) (by decide)
        (by decide) (by decide)).2,
    C10_sentinel_encoding.2.2.2.2 statePending 0 1 pendingId 2 (by decide)
      (by decide) (Or.inl rfl)⟩

end QtUtilities
